import Mathlib

/-!
Shallow embedding of `packages/beacon-node/src/chain/rewards/blockRewards.ts`
(lodestar block-reward calculator) and proofs about it.

Conventions of the embedding:
* JS `number` values in this module hold unsigned protocol integers
  (uint64 SSZ fields, accumulated rewards); they are embedded as `Nat`.
  `Math.floor(b / q)` on such values is exactly `Nat` floor division.
* In-place mutation of the beacon state is embedded as explicit state
  passing: a function that mutates the state returns the new state.
* A thrown exception is embedded as `Except.error`; the paired state is
  the state as it stood when the throw happened.
* Collaborators imported from other packages of the repository
  (`@lodestar/state-transition`, `@lodestar/params`) are not under `src/`;
  they are modelled from the spec, and marked as such below.
-/

namespace Lodestar

/-- Fork schedule identifiers (`ForkName` from the params package): phase0 is
the earliest supported fork, every later fork carries sync committees. -/
inductive ForkName : Type
  | phase0
  | altair
  | bellatrix
  | capella
  | deneb
deriving DecidableEq, Repr

/-- A validator record of the pre-state; only the effective balance is read
by the reward calculator. Effective balance is a uint64 SSZ field. -/
structure Validator : Type where
  effectiveBalance : Nat
deriving DecidableEq, Repr

/-- `BeaconBlockHeader`: the message of a signed header inside a proposer
slashing. -/
structure BeaconBlockHeader : Type where
  slot : Nat
  proposerIndex : Nat
deriving DecidableEq, Repr

/-- `SignedBeaconBlockHeader` of a proposer slashing. -/
structure SignedBeaconBlockHeader : Type where
  message : BeaconBlockHeader
deriving DecidableEq, Repr

/-- `ProposerSlashing`: two conflicting signed headers; the offending
proposer is named by the first header's message. -/
structure ProposerSlashing : Type where
  signedHeader1 : SignedBeaconBlockHeader
  signedHeader2 : SignedBeaconBlockHeader
deriving DecidableEq, Repr

/-- `IndexedAttestation` inside an attester slashing. -/
structure IndexedAttestation : Type where
  attestingIndices : List Nat
deriving DecidableEq, Repr

/-- `AttesterSlashing`: two conflicting indexed attestations. -/
structure AttesterSlashing : Type where
  attestation1 : IndexedAttestation
  attestation2 : IndexedAttestation
deriving DecidableEq, Repr

/-- A committee attestation of the block body. Its payload is never
inspected by this module: it is handed whole to the external
attestation-processing engine. -/
structure Attestation : Type where
  aggregationBits : List Bool
deriving DecidableEq, Repr

/-- `SyncAggregate`: the participation bitfield of the sync committee.
The bitfield is embedded as a list of booleans. -/
structure SyncAggregate : Type where
  syncCommitteeBits : List Bool
deriving DecidableEq, Repr

/-- The parts of the block body read by the reward calculator. A phase0
block carries no sync aggregate, hence the `Option`. -/
structure BeaconBlockBody : Type where
  attestations : List Attestation
  syncAggregate : Option SyncAggregate
  proposerSlashings : List ProposerSlashing
  attesterSlashings : List AttesterSlashing
deriving DecidableEq, Repr

/-- The parts of `BeaconBlock` read by the reward calculator. -/
structure BeaconBlock : Type where
  slot : Nat
  proposerIndex : Nat
  body : BeaconBlockBody
deriving DecidableEq, Repr

/-- Modelled from the spec: the fork-schedule resolver (`state.config`),
an external collaborator. `getForkName` maps a slot to the fork active at
that slot; `getForkSeq` maps a slot to the fork's sequence number. -/
structure ChainConfig : Type where
  getForkName : Nat → ForkName
  getForkSeq : Nat → Nat

/-- The part of the epoch context read here: the precomputed
sync-proposer-reward constant. The source comments that it
"should already be integer", so it is embedded as `Nat` and the
defensive `Math.floor` applied to it in the source is the identity. -/
structure EpochContext : Type where
  syncProposerReward : Nat

/-- The pre-state's transient proposer-reward accumulator
(`state.proposerRewards`); its `attestations` field is the side channel
written by the external attestation-processing engine. -/
structure ProposerRewards : Type where
  attestations : Nat
deriving DecidableEq, Repr

/-- The parts of `CachedBeaconStateAllForks` read (and, for
`proposerRewards`, written) by the reward calculator. -/
structure BeaconState : Type where
  config : ChainConfig
  validators : List Validator
  epochCtx : EpochContext
  proposerRewards : ProposerRewards

/-- The `BlockRewards` breakdown returned by `computeBlockRewards`. -/
structure BlockRewards : Type where
  proposerIndex : Nat
  total : Nat
  attestations : Nat
  syncAggregate : Nat
  proposerSlashings : Nat
  attesterSlashings : Nat
deriving DecidableEq, Repr

/-- The single error kind of this module. The source throws a generic
`Error` whose message reports an unsupported fork; the spec names the
condition `UnsupportedForkOperation`. -/
inductive RewardError : Type
  | UnsupportedForkOperation
deriving DecidableEq, Repr

/-- Modelled from the spec: `WHISTLEBLOWER_REWARD_QUOTIENT` from the params
package (not under `src/`), a positive integer divisor (mainnet value 512). -/
def WHISTLEBLOWER_REWARD_QUOTIENT : Nat := 512

/-- Modelled from the spec: the external attestation-processing engine
`processAttestationsAltair` from the state-transition package (not under
`src/`). Per the spec, invoked in reward-only mode (applySlashingChecks =
false) it accumulates the proposer reward earned for each processed
attestation into the pre-state's proposer-reward accumulator, its sole
reward-reporting output, and mutates nothing else. The per-attestation
reward function `rewardOf` — determined by the engine from the attestation
and the parts of the state this mode leaves unchanged — is a parameter of
the model. -/
def processAttestationsAltair (rewardOf : Attestation → Nat) (_forkSeq : Nat)
    (state : BeaconState) (attestations : List Attestation)
    (_applySlashingChecks : Bool) : BeaconState :=
  { state with
    proposerRewards :=
      { attestations :=
          state.proposerRewards.attestations + (attestations.map rewardOf).sum } }

/-- `BitArray.getTrueBitIndexes` of the participation bitfield: the indexes
of the set bits, in order. -/
def getTrueBitIndexes (bits : List Bool) : List Nat :=
  (bits.enum.filter (fun p => p.2)).map (fun p => p.1)

/-- Effective-balance lookup `state.validators.get(i).effectiveBalance`.
Out-of-range indexes are undefined behavior at this layer (the source view
would throw; inputs are assumed pre-validated), embedded with a zero
default. -/
def effectiveBalanceAt (state : BeaconState) (i : Nat) : Nat :=
  (state.validators.getD i { effectiveBalance := 0 }).effectiveBalance

/-- `computeBlockAttestationRewardPhase0`: always throws — attestation
reward calculation is not available in phase0. -/
def computeBlockAttestationRewardPhase0 (_block : BeaconBlock)
    (_state : BeaconState) : Except RewardError (Nat × BeaconState) :=
  Except.error RewardError.UnsupportedForkOperation

/-- `computeBlockAttestationRewardAltair`: runs the external engine in
reward-only mode on the block's attestations and returns the pre-state's
proposer-reward accumulator afterwards, together with the mutated state. -/
def computeBlockAttestationRewardAltair (rewardOf : Attestation → Nat)
    (block : BeaconBlock) (state : BeaconState) :
    Except RewardError (Nat × BeaconState) :=
  let fork := state.config.getForkSeq block.slot
  let state1 := processAttestationsAltair rewardOf fork state
    block.body.attestations false
  Except.ok (state1.proposerRewards.attestations, state1)

/-- `computeSyncAggregateReward`: number of set participation bits times
the (integer) sync-proposer-reward constant; 0 when the body carries no
sync aggregate (phase0). The source's defensive
`Math.floor(syncProposerReward)` is the identity on the `Nat` embedding. -/
def computeSyncAggregateReward (block : BeaconBlock) (state : BeaconState) :
    Nat :=
  match block.body.syncAggregate with
  | some syncAggregate =>
      (getTrueBitIndexes syncAggregate.syncCommitteeBits).length *
        state.epochCtx.syncProposerReward
  | none => 0

/-- `computeBlockProposerSlashingReward`: for each proposer slashing, add
`Math.floor(effectiveBalance / WHISTLEBLOWER_REWARD_QUOTIENT)` of the
offending proposer named by the first signed header's message. -/
def computeBlockProposerSlashingReward (block : BeaconBlock)
    (state : BeaconState) : Nat :=
  block.body.proposerSlashings.foldl
    (fun acc proposerSlashing =>
      acc + effectiveBalanceAt state
          proposerSlashing.signedHeader1.message.proposerIndex /
        WHISTLEBLOWER_REWARD_QUOTIENT)
    0

/-- `computeBlockAttesterSlashingReward`: for each attester slashing and
each index produced by the external utility `getAttesterSlashableIndices`
(modelled as the parameter `slashableIndices`, since that utility lives in
the state-transition package outside `src/`), add
`Math.floor(effectiveBalance / WHISTLEBLOWER_REWARD_QUOTIENT)`. -/
def computeBlockAttesterSlashingReward
    (slashableIndices : AttesterSlashing → List Nat) (block : BeaconBlock)
    (state : BeaconState) : Nat :=
  block.body.attesterSlashings.foldl
    (fun acc attesterSlashing =>
      (slashableIndices attesterSlashing).foldl
        (fun acc2 i =>
          acc2 + effectiveBalanceAt state i / WHISTLEBLOWER_REWARD_QUOTIENT)
        acc)
    0

/-- `computeBlockRewards`: fork-dispatches the attestation reward (the
phase0 variant throws, aborting the whole computation with the state
untouched), then computes the three fork-uniform sub-rewards on the
(possibly mutated) state, sums them and returns the breakdown. The second
component is the state as left by the call. -/
def computeBlockRewards (rewardOf : Attestation → Nat)
    (slashableIndices : AttesterSlashing → List Nat) (block : BeaconBlock)
    (state : BeaconState) : Except RewardError BlockRewards × BeaconState :=
  match (if state.config.getForkName block.slot = ForkName.phase0 then
           computeBlockAttestationRewardPhase0 block state
         else
           computeBlockAttestationRewardAltair rewardOf block state) with
  | Except.error e => (Except.error e, state)
  | Except.ok (blockAttestationReward, state1) =>
      let syncAggregateReward := computeSyncAggregateReward block state1
      let blockProposerSlashingReward :=
        computeBlockProposerSlashingReward block state1
      let blockAttesterSlashingReward :=
        computeBlockAttesterSlashingReward slashableIndices block state1
      let total := blockAttestationReward + syncAggregateReward +
        blockProposerSlashingReward + blockAttesterSlashingReward
      (Except.ok
        { proposerIndex := block.proposerIndex
          total := total
          attestations := blockAttestationReward
          syncAggregate := syncAggregateReward
          proposerSlashings := blockProposerSlashingReward
          attesterSlashings := blockAttesterSlashingReward },
       state1)

/-! ### Helper lemmas -/

/-- A left fold that only adds `f` of each element equals the starting
value plus the sum of the mapped list. -/
theorem foldl_add_map_sum {α : Type} (f : α → Nat) :
    ∀ (l : List α) (n : Nat),
      l.foldl (fun acc x => acc + f x) n = n + (l.map f).sum := by
  intro l
  induction l with
  | nil => intro n; simp
  | cons x xs ih =>
      intro n
      simp only [List.foldl_cons, List.map_cons, List.sum_cons, ih]
      omega

theorem length_filter_enumFrom (bits : List Bool) :
    ∀ n : Nat,
      (((List.enumFrom n bits).filter (fun p => p.2)).map
          (fun p => p.1)).length = bits.count true := by
  induction bits with
  | nil => intro n; rfl
  | cons b xs ih =>
      intro n
      cases b <;> simp [List.enumFrom, List.filter, List.count_cons, ih]

/-- The number of indexes returned by `getTrueBitIndexes` is the number of
set bits. -/
theorem getTrueBitIndexes_length (bits : List Bool) :
    (getTrueBitIndexes bits).length = bits.count true :=
  length_filter_enumFrom bits 0

/-- Updating the proposer-reward accumulator does not change the sync
aggregate reward (it reads only the block and the epoch context). -/
theorem computeSyncAggregateReward_proposerRewards_irrel
    (block : BeaconBlock) (state : BeaconState) (pr : ProposerRewards) :
    computeSyncAggregateReward block { state with proposerRewards := pr } =
      computeSyncAggregateReward block state := rfl

/-- Updating the proposer-reward accumulator does not change the proposer
slashing reward (it reads only the block and the validator registry). -/
theorem computeBlockProposerSlashingReward_proposerRewards_irrel
    (block : BeaconBlock) (state : BeaconState) (pr : ProposerRewards) :
    computeBlockProposerSlashingReward block
        { state with proposerRewards := pr } =
      computeBlockProposerSlashingReward block state := rfl

/-- Updating the proposer-reward accumulator does not change the attester
slashing reward (it reads only the block and the validator registry). -/
theorem computeBlockAttesterSlashingReward_proposerRewards_irrel
    (slashableIndices : AttesterSlashing → List Nat) (block : BeaconBlock)
    (state : BeaconState) (pr : ProposerRewards) :
    computeBlockAttesterSlashingReward slashableIndices block
        { state with proposerRewards := pr } =
      computeBlockAttesterSlashingReward slashableIndices block state := rfl

/-- Evaluation of `computeBlockRewards` on any non-phase0 fork: the
attestation sub-reward is the accumulator plus the engine's accumulation,
the final state differs from the input only in the accumulator, and the
breakdown is assembled from the sub-calculators. -/
theorem computeBlockRewards_ok_eq (rewardOf : Attestation → Nat)
    (slashableIndices : AttesterSlashing → List Nat) (block : BeaconBlock)
    (state : BeaconState)
    (h : state.config.getForkName block.slot ≠ ForkName.phase0) :
    computeBlockRewards rewardOf slashableIndices block state =
      (Except.ok
        { proposerIndex := block.proposerIndex
          total := (state.proposerRewards.attestations +
              (block.body.attestations.map rewardOf).sum) +
            computeSyncAggregateReward block state +
            computeBlockProposerSlashingReward block state +
            computeBlockAttesterSlashingReward slashableIndices block state
          attestations := state.proposerRewards.attestations +
            (block.body.attestations.map rewardOf).sum
          syncAggregate := computeSyncAggregateReward block state
          proposerSlashings := computeBlockProposerSlashingReward block state
          attesterSlashings :=
            computeBlockAttesterSlashingReward slashableIndices block state },
       { state with
          proposerRewards :=
            { attestations := state.proposerRewards.attestations +
                (block.body.attestations.map rewardOf).sum } }) := by
  simp [computeBlockRewards, if_neg h, computeBlockAttestationRewardAltair,
    processAttestationsAltair,
    computeSyncAggregateReward_proposerRewards_irrel,
    computeBlockProposerSlashingReward_proposerRewards_irrel,
    computeBlockAttesterSlashingReward_proposerRewards_irrel]

/-! ### Sample inputs used by the witnesses -/

def altairConfig : ChainConfig where
  getForkName := fun _ => ForkName.altair
  getForkSeq := fun _ => 1

def phase0Config : ChainConfig where
  getForkName := fun _ => ForkName.phase0
  getForkSeq := fun _ => 0

def sampleState : BeaconState where
  config := altairConfig
  validators := [{ effectiveBalance := 32000000000 },
                 { effectiveBalance := 31000000000 }]
  epochCtx := { syncProposerReward := 7 }
  proposerRewards := { attestations := 0 }

def sampleStatePhase0 : BeaconState :=
  { sampleState with config := phase0Config }

def constReward : Attestation → Nat := fun _ => 5

def sampleSlashableIndices : AttesterSlashing → List Nat :=
  fun a => a.attestation2.attestingIndices

def sampleBlock : BeaconBlock where
  slot := 5
  proposerIndex := 3
  body :=
    { attestations := [{ aggregationBits := [true, true] }]
      syncAggregate := some { syncCommitteeBits := [true, false, true] }
      proposerSlashings :=
        [{ signedHeader1 := { message := { slot := 4, proposerIndex := 0 } }
           signedHeader2 := { message := { slot := 4, proposerIndex := 0 } } }]
      attesterSlashings :=
        [{ attestation1 := { attestingIndices := [0, 1] }
           attestation2 := { attestingIndices := [1] } }] }

/-! ### Claim theorems -/

/-- C1: for every block whose slot resolves to phase0, `computeBlockRewards`
fails with the `UnsupportedForkOperation` error (the attestation-reward
path always fails on that fork) and returns no `BlockRewards` breakdown. -/
theorem computeBlockRewards_phase0_fails (rewardOf : Attestation → Nat)
    (slashableIndices : AttesterSlashing → List Nat) (block : BeaconBlock)
    (state : BeaconState)
    (h : state.config.getForkName block.slot = ForkName.phase0) :
    (computeBlockRewards rewardOf slashableIndices block state).1 =
      Except.error RewardError.UnsupportedForkOperation := by
  simp [computeBlockRewards, h, computeBlockAttestationRewardPhase0]

/-- Witness for C1 at a concrete phase0 state and block. -/
theorem computeBlockRewards_phase0_fails_w :
    sampleStatePhase0.config.getForkName sampleBlock.slot = ForkName.phase0 ∧
    (computeBlockRewards constReward sampleSlashableIndices sampleBlock
        sampleStatePhase0).1 =
      Except.error RewardError.UnsupportedForkOperation :=
  ⟨rfl, computeBlockRewards_phase0_fails constReward sampleSlashableIndices
    sampleBlock sampleStatePhase0 rfl⟩

/-- C10: on phase0 the failure is atomic — `computeBlockRewards` returns
the error with the pre-state (accumulator included) completely unchanged:
no sync-aggregate or slashing-reward computation has touched it. -/
theorem computeBlockRewards_phase0_atomic (rewardOf : Attestation → Nat)
    (slashableIndices : AttesterSlashing → List Nat) (block : BeaconBlock)
    (state : BeaconState)
    (h : state.config.getForkName block.slot = ForkName.phase0) :
    computeBlockRewards rewardOf slashableIndices block state =
      (Except.error RewardError.UnsupportedForkOperation, state) := by
  simp [computeBlockRewards, h, computeBlockAttestationRewardPhase0]

/-- Witness for C10 at a concrete phase0 state and block. -/
theorem computeBlockRewards_phase0_atomic_w :
    sampleStatePhase0.config.getForkName sampleBlock.slot = ForkName.phase0 ∧
    computeBlockRewards constReward sampleSlashableIndices sampleBlock
        sampleStatePhase0 =
      (Except.error RewardError.UnsupportedForkOperation, sampleStatePhase0) :=
  ⟨rfl, computeBlockRewards_phase0_atomic constReward sampleSlashableIndices
    sampleBlock sampleStatePhase0 rfl⟩

/-- C9: `computeBlockRewards` mutates no part of the pre-state other than
the proposer-reward accumulator: the fork configuration, the validator
registry and the epoch context of the state it returns are those of the
input state. The block and the canonical chain state are read-only inputs
of this functional embedding and are untouched by construction. -/
theorem computeBlockRewards_frame (rewardOf : Attestation → Nat)
    (slashableIndices : AttesterSlashing → List Nat) (block : BeaconBlock)
    (state : BeaconState) :
    (computeBlockRewards rewardOf slashableIndices block state).2.config =
        state.config ∧
      (computeBlockRewards rewardOf slashableIndices block
          state).2.validators = state.validators ∧
      (computeBlockRewards rewardOf slashableIndices block state).2.epochCtx =
        state.epochCtx := by
  by_cases h : state.config.getForkName block.slot = ForkName.phase0
  · simp [computeBlockRewards, h, computeBlockAttestationRewardPhase0]
  · rw [computeBlockRewards_ok_eq _ _ _ _ h]
    exact ⟨rfl, rfl, rfl⟩

/-- C2: whenever `computeBlockRewards` returns a breakdown, its total is
exactly `attestations + syncAggregate + proposerSlashings +
attesterSlashings`, and all five values are non-negative integers (they
are `Nat`-valued, so their integer casts are non-negative and nothing is
fractional). -/
theorem computeBlockRewards_total_eq_sum (rewardOf : Attestation → Nat)
    (slashableIndices : AttesterSlashing → List Nat) (block : BeaconBlock)
    (state : BeaconState) (r : BlockRewards)
    (h : (computeBlockRewards rewardOf slashableIndices block state).1 =
      Except.ok r) :
    r.total = r.attestations + r.syncAggregate + r.proposerSlashings +
        r.attesterSlashings ∧
      0 ≤ (r.total : Int) ∧ 0 ≤ (r.attestations : Int) ∧
      0 ≤ (r.syncAggregate : Int) ∧ 0 ≤ (r.proposerSlashings : Int) ∧
      0 ≤ (r.attesterSlashings : Int) := by
  by_cases hf : state.config.getForkName block.slot = ForkName.phase0
  · simp [computeBlockRewards, hf, computeBlockAttestationRewardPhase0] at h
  · rw [computeBlockRewards_ok_eq _ _ _ _ hf] at h
    simp only [Except.ok.injEq] at h
    subst h
    exact ⟨rfl, Int.natCast_nonneg _, Int.natCast_nonneg _,
      Int.natCast_nonneg _, Int.natCast_nonneg _, Int.natCast_nonneg _⟩

def sampleRewards : BlockRewards where
  proposerIndex := 3
  total := 123046894
  attestations := 5
  syncAggregate := 14
  proposerSlashings := 62500000
  attesterSlashings := 60546875

/-- Witness for C2 at a concrete altair state and block. -/
theorem computeBlockRewards_total_eq_sum_w :
    sampleRewards.total = sampleRewards.attestations +
        sampleRewards.syncAggregate + sampleRewards.proposerSlashings +
        sampleRewards.attesterSlashings ∧
      0 ≤ (sampleRewards.total : Int) ∧
      0 ≤ (sampleRewards.attestations : Int) ∧
      0 ≤ (sampleRewards.syncAggregate : Int) ∧
      0 ≤ (sampleRewards.proposerSlashings : Int) ∧
      0 ≤ (sampleRewards.attesterSlashings : Int) :=
  computeBlockRewards_total_eq_sum constReward sampleSlashableIndices
    sampleBlock sampleState sampleRewards rfl

/-- C3: for every sync-committee-era (non-phase0) block, the attestations
sub-reward is obtained by invoking the external attestation-processing
engine in reward-only mode (applySlashingChecks = false) on the block's
attestation list and the pre-state, and equals the pre-state's
proposer-reward accumulator after that invocation. -/
theorem computeBlockRewards_attestations_via_engine
    (rewardOf : Attestation → Nat)
    (slashableIndices : AttesterSlashing → List Nat) (block : BeaconBlock)
    (state : BeaconState)
    (h : state.config.getForkName block.slot ≠ ForkName.phase0) :
    ∃ r : BlockRewards,
      (computeBlockRewards rewardOf slashableIndices block state).1 =
          Except.ok r ∧
        r.attestations =
          (processAttestationsAltair rewardOf
              (state.config.getForkSeq block.slot) state
              block.body.attestations
              false).proposerRewards.attestations := by
  rw [computeBlockRewards_ok_eq _ _ _ _ h]
  exact ⟨_, rfl, rfl⟩

/-- Witness for C3 at a concrete altair state and block. -/
theorem computeBlockRewards_attestations_via_engine_w :
    sampleState.config.getForkName sampleBlock.slot ≠ ForkName.phase0 ∧
    ∃ r : BlockRewards,
      (computeBlockRewards constReward sampleSlashableIndices sampleBlock
          sampleState).1 = Except.ok r ∧
        r.attestations =
          (processAttestationsAltair constReward
              (sampleState.config.getForkSeq sampleBlock.slot) sampleState
              sampleBlock.body.attestations
              false).proposerRewards.attestations :=
  ⟨by decide, computeBlockRewards_attestations_via_engine constReward
    sampleSlashableIndices sampleBlock sampleState (by decide)⟩

/-- C4: the syncAggregate sub-reward of any returned breakdown is
`computeSyncAggregateReward`, which equals the number of set participation
bits times the sync-proposer-reward constant (an integer, on which the
source's defensive floor is the identity) when the body carries a sync
aggregate, and 0 when it carries none. -/
theorem computeSyncAggregateReward_spec (rewardOf : Attestation → Nat)
    (slashableIndices : AttesterSlashing → List Nat) (block : BeaconBlock)
    (state : BeaconState) :
    (∀ agg : SyncAggregate, block.body.syncAggregate = some agg →
        computeSyncAggregateReward block state =
          agg.syncCommitteeBits.count true *
            state.epochCtx.syncProposerReward) ∧
      (block.body.syncAggregate = none →
        computeSyncAggregateReward block state = 0) ∧
      (∀ r : BlockRewards,
        (computeBlockRewards rewardOf slashableIndices block state).1 =
            Except.ok r →
          r.syncAggregate = computeSyncAggregateReward block state) := by
  refine ⟨?_, ?_, ?_⟩
  · intro agg hagg
    simp [computeSyncAggregateReward, hagg, getTrueBitIndexes_length]
  · intro hnone
    simp [computeSyncAggregateReward, hnone]
  · intro r hr
    by_cases hf : state.config.getForkName block.slot = ForkName.phase0
    · simp [computeBlockRewards, hf, computeBlockAttestationRewardPhase0]
        at hr
    · rw [computeBlockRewards_ok_eq _ _ _ _ hf] at hr
      simp only [Except.ok.injEq] at hr
      subst hr
      rfl

/-- Witness for C4 at a concrete block carrying a sync aggregate with two
set bits out of three. -/
theorem computeSyncAggregateReward_spec_w :
    sampleBlock.body.syncAggregate =
        some { syncCommitteeBits := [true, false, true] } ∧
      computeSyncAggregateReward sampleBlock sampleState =
        ([true, false, true] : List Bool).count true *
          sampleState.epochCtx.syncProposerReward :=
  ⟨rfl, (computeSyncAggregateReward_spec constReward sampleSlashableIndices
      sampleBlock sampleState).1
    { syncCommitteeBits := [true, false, true] } rfl⟩

/-- C5: the proposerSlashings sub-reward of any returned breakdown is
`computeBlockProposerSlashingReward`, which equals the sum, over every
proposer slashing of the block body (each duplicate counted, and invariant
under permutation of the list), of the floor-divided effective balance
`B / WHISTLEBLOWER_REWARD_QUOTIENT` of the validator indexed by the first
signed header's message proposer index. -/
theorem computeBlockProposerSlashingReward_sum (rewardOf : Attestation → Nat)
    (slashableIndices : AttesterSlashing → List Nat) (block : BeaconBlock)
    (state : BeaconState) :
    computeBlockProposerSlashingReward block state =
        (block.body.proposerSlashings.map (fun ps =>
          effectiveBalanceAt state ps.signedHeader1.message.proposerIndex /
            WHISTLEBLOWER_REWARD_QUOTIENT)).sum ∧
      (∀ other : List ProposerSlashing,
        other.Perm block.body.proposerSlashings →
          computeBlockProposerSlashingReward
              { block with
                body := { block.body with proposerSlashings := other } }
              state =
            computeBlockProposerSlashingReward block state) ∧
      (∀ r : BlockRewards,
        (computeBlockRewards rewardOf slashableIndices block state).1 =
            Except.ok r →
          r.proposerSlashings =
            computeBlockProposerSlashingReward block state) := by
  refine ⟨?_, ?_, ?_⟩
  · simp [computeBlockProposerSlashingReward, foldl_add_map_sum]
  · intro other hperm
    simp only [computeBlockProposerSlashingReward, foldl_add_map_sum,
      Nat.zero_add]
    exact List.Perm.sum_eq (hperm.map _)
  · intro r hr
    by_cases hf : state.config.getForkName block.slot = ForkName.phase0
    · simp [computeBlockRewards, hf, computeBlockAttestationRewardPhase0]
        at hr
    · rw [computeBlockRewards_ok_eq _ _ _ _ hf] at hr
      simp only [Except.ok.injEq] at hr
      subst hr
      rfl

/-- Witness for C5: one slashing naming validator 0 with balance
32000000000 rewards 32000000000 / 512 = 62500000. -/
theorem computeBlockProposerSlashingReward_sum_w :
    computeBlockProposerSlashingReward sampleBlock sampleState =
        (sampleBlock.body.proposerSlashings.map (fun ps =>
          effectiveBalanceAt sampleState
              ps.signedHeader1.message.proposerIndex /
            WHISTLEBLOWER_REWARD_QUOTIENT)).sum ∧
      sampleRewards.proposerSlashings =
        computeBlockProposerSlashingReward sampleBlock sampleState :=
  ⟨(computeBlockProposerSlashingReward_sum constReward
      sampleSlashableIndices sampleBlock sampleState).1,
   (computeBlockProposerSlashingReward_sum constReward
      sampleSlashableIndices sampleBlock sampleState).2.2 sampleRewards rfl⟩

/-- C6: the attesterSlashings sub-reward of any returned breakdown is
`computeBlockAttesterSlashingReward`, which equals the sum, over every
attester slashing of the block body and every validator index in the
slashable-index set produced by the external slashing-indices utility for
that slashing, of the floor-divided effective balance
`Bi / WHISTLEBLOWER_REWARD_QUOTIENT`. -/
theorem computeBlockAttesterSlashingReward_sum (rewardOf : Attestation → Nat)
    (slashableIndices : AttesterSlashing → List Nat) (block : BeaconBlock)
    (state : BeaconState) :
    computeBlockAttesterSlashingReward slashableIndices block state =
        (block.body.attesterSlashings.map (fun a =>
          ((slashableIndices a).map (fun i =>
            effectiveBalanceAt state i /
              WHISTLEBLOWER_REWARD_QUOTIENT)).sum)).sum ∧
      (∀ r : BlockRewards,
        (computeBlockRewards rewardOf slashableIndices block state).1 =
            Except.ok r →
          r.attesterSlashings =
            computeBlockAttesterSlashingReward slashableIndices block
              state) := by
  refine ⟨?_, ?_⟩
  · simp [computeBlockAttesterSlashingReward, foldl_add_map_sum]
  · intro r hr
    by_cases hf : state.config.getForkName block.slot = ForkName.phase0
    · simp [computeBlockRewards, hf, computeBlockAttestationRewardPhase0]
        at hr
    · rw [computeBlockRewards_ok_eq _ _ _ _ hf] at hr
      simp only [Except.ok.injEq] at hr
      subst hr
      rfl

/-- Witness for C6: one slashing whose slashable-index set is `[1]`, with
balance 31000000000, rewards 31000000000 / 512 = 60546875. -/
theorem computeBlockAttesterSlashingReward_sum_w :
    computeBlockAttesterSlashingReward sampleSlashableIndices sampleBlock
        sampleState =
        (sampleBlock.body.attesterSlashings.map (fun a =>
          ((sampleSlashableIndices a).map (fun i =>
            effectiveBalanceAt sampleState i /
              WHISTLEBLOWER_REWARD_QUOTIENT)).sum)).sum ∧
      sampleRewards.attesterSlashings =
        computeBlockAttesterSlashingReward sampleSlashableIndices
          sampleBlock sampleState :=
  ⟨(computeBlockAttesterSlashingReward_sum constReward
      sampleSlashableIndices sampleBlock sampleState).1,
   (computeBlockAttesterSlashingReward_sum constReward
      sampleSlashableIndices sampleBlock sampleState).2 sampleRewards rfl⟩

/-- C7: a sync-committee-era (non-phase0) block with an empty attestation
list, a sync aggregate with zero set participation bits, and no slashings
yields a breakdown with total 0 and all four sub-rewards 0, from a
pre-state prepared per the spec (accumulator reset to zero). -/
theorem computeBlockRewards_empty_zero (rewardOf : Attestation → Nat)
    (slashableIndices : AttesterSlashing → List Nat) (block : BeaconBlock)
    (state : BeaconState) (agg : SyncAggregate)
    (hfork : state.config.getForkName block.slot ≠ ForkName.phase0)
    (hacc : state.proposerRewards.attestations = 0)
    (hatt : block.body.attestations = [])
    (hagg : block.body.syncAggregate = some agg)
    (hbits : agg.syncCommitteeBits.count true = 0)
    (hprop : block.body.proposerSlashings = [])
    (hatts : block.body.attesterSlashings = []) :
    (computeBlockRewards rewardOf slashableIndices block state).1 =
      Except.ok
        { proposerIndex := block.proposerIndex, total := 0,
          attestations := 0, syncAggregate := 0, proposerSlashings := 0,
          attesterSlashings := 0 } := by
  rw [computeBlockRewards_ok_eq _ _ _ _ hfork]
  simp [hacc, hatt, hagg, hprop, hatts, computeSyncAggregateReward,
    computeBlockProposerSlashingReward, computeBlockAttesterSlashingReward,
    getTrueBitIndexes_length, hbits]

def emptyBlock : BeaconBlock where
  slot := 9
  proposerIndex := 2
  body :=
    { attestations := []
      syncAggregate := some { syncCommitteeBits := [false, false] }
      proposerSlashings := []
      attesterSlashings := [] }

/-- Witness for C7 at a concrete empty altair block. -/
theorem computeBlockRewards_empty_zero_w :
    (computeBlockRewards constReward sampleSlashableIndices emptyBlock
        sampleState).1 =
      Except.ok
        { proposerIndex := 2, total := 0, attestations := 0,
          syncAggregate := 0, proposerSlashings := 0,
          attesterSlashings := 0 } :=
  computeBlockRewards_empty_zero constReward sampleSlashableIndices
    emptyBlock sampleState { syncCommitteeBits := [false, false] }
    (by decide) rfl rfl rfl (by decide) rfl rfl

/-- C8: `computeBlockRewards` is not idempotent in the pre-state — on any
non-phase0 block, a second call on the state left by the first call
double-counts: its attestations sub-reward is the first call's sub-reward
(the accumulation the first call left in the accumulator) plus the
engine's accumulation once more. -/
theorem computeBlockRewards_double_count (rewardOf : Attestation → Nat)
    (slashableIndices : AttesterSlashing → List Nat) (block : BeaconBlock)
    (state : BeaconState)
    (h : state.config.getForkName block.slot ≠ ForkName.phase0) :
    ∀ r1 r2 : BlockRewards,
      (computeBlockRewards rewardOf slashableIndices block state).1 =
          Except.ok r1 →
        (computeBlockRewards rewardOf slashableIndices block
            (computeBlockRewards rewardOf slashableIndices block
              state).2).1 = Except.ok r2 →
        r1.attestations = state.proposerRewards.attestations +
            (block.body.attestations.map rewardOf).sum ∧
          r2.attestations = r1.attestations +
            (block.body.attestations.map rewardOf).sum := by
  intro r1 r2 h1 h2
  rw [computeBlockRewards_ok_eq _ _ _ _ h] at h1 h2
  rw [computeBlockRewards_ok_eq rewardOf slashableIndices block
    { state with
      proposerRewards :=
        { attestations := state.proposerRewards.attestations +
            (block.body.attestations.map rewardOf).sum } } h] at h2
  simp only [Except.ok.injEq] at h1 h2
  subst h1
  subst h2
  exact ⟨rfl, rfl⟩

def sampleRewardsTwice : BlockRewards where
  proposerIndex := 3
  total := 123046899
  attestations := 10
  syncAggregate := 14
  proposerSlashings := 62500000
  attesterSlashings := 60546875

/-- Witness for C8: on the sample block the engine accumulates 5, so the
first call reports 5 and the second call reports 10. -/
theorem computeBlockRewards_double_count_w :
    sampleRewards.attestations =
        sampleState.proposerRewards.attestations +
          (sampleBlock.body.attestations.map constReward).sum ∧
      sampleRewardsTwice.attestations = sampleRewards.attestations +
        (sampleBlock.body.attestations.map constReward).sum :=
  computeBlockRewards_double_count constReward sampleSlashableIndices
    sampleBlock sampleState (by decide) sampleRewards sampleRewardsTwice
    rfl rfl

end Lodestar
